import Mathlib

/-!
Shallow embedding of the rsID_retrieval repository core
(`core/vcf_processor.py`, `core/entrez_api.py`, `core/sandbox.py`,
`additional scripts/split_vcf_by_chromosome.py`) and proofs about it.

Files are modelled as lists of lines (without trailing line terminators);
Python string operations are modelled by executable functions over
`List Char` / `String` defined below.
-/

namespace RsidRetrieval

/-! ### Python string-operation semantics -/

/-- Python `str.isdigit` on one character (ASCII digits). -/
def isDigitChar (c : Char) : Bool :=
  '0' ≤ c && c ≤ '9'

/-- Whitespace characters removed by Python `str.strip()` (ASCII subset). -/
def isSpaceChar (c : Char) : Bool :=
  c = ' ' || c = '\t' || c = '\n' || c = '\r'

/-- Python `str.strip()` on a character list. -/
def stripChars (l : List Char) : List Char :=
  ((l.dropWhile isSpaceChar).reverse.dropWhile isSpaceChar).reverse

/-- Python `str.strip()`. -/
def pyStrip (s : String) : String :=
  String.mk (stripChars s.data)

/-- Python `str.split(sep)` for a one-character separator, keeping empty parts. -/
def splitOnChar (c : Char) : List Char → List (List Char)
  | [] => [[]]
  | x :: xs =>
    match splitOnChar c xs with
    | [] => [[x]]
    | g :: gs => if x = c then [] :: g :: gs else (x :: g) :: gs

/-- Python `str.split(sep)` on strings. -/
def pySplit (s : String) (c : Char) : List String :=
  (splitOnChar c s.data).map String.mk

/-- Python `str.startswith(pre)`. -/
def pyStartsWith (s pre : String) : Bool :=
  pre.data.isPrefixOf s.data

/-- Python `str.endswith(suf)`. -/
def pyEndsWith (s suf : String) : Bool :=
  suf.data.reverse.isPrefixOf s.data.reverse

/-- Python `str.lower()` (ASCII). -/
def pyLower (s : String) : String :=
  String.mk (s.data.map Char.toLower)

/-- Python `str.upper()` (ASCII). -/
def pyUpper (s : String) : String :=
  String.mk (s.data.map Char.toUpper)

/-- Numeric value of a digit list (most significant first). -/
def natOfDigits (l : List Char) : Nat :=
  l.foldl (fun n c => 10 * n + (c.toNat - 48)) 0

/-- Python `int(s)`: optional sign around a nonempty digit string,
surrounding whitespace stripped; `none` models a raised `ValueError`. -/
def pyInt (s : String) : Option Int :=
  match stripChars s.data with
  | '-' :: ds =>
    if ds ≠ [] && ds.all isDigitChar then some (-(natOfDigits ds : Int)) else none
  | '+' :: ds =>
    if ds ≠ [] && ds.all isDigitChar then some (natOfDigits ds : Int) else none
  | ds =>
    if ds ≠ [] && ds.all isDigitChar then some (natOfDigits ds : Int) else none

/-- Finite-decimal fragment of Python `float(s)` / `pandas.to_numeric`,
as an exact rational; `none` models a parse failure (pandas `NaN` under
`errors="coerce"`).  In particular the missing-value token `"."` has no
digits and yields `none`. -/
def pyFloat (s : String) : Option ℚ :=
  let body := fun (ds : List Char) (sign : ℚ) =>
    match splitOnChar '.' ds with
    | [is] =>
      if is ≠ [] && is.all isDigitChar then some (sign * (natOfDigits is : ℚ)) else none
    | [is, fs] =>
      if (is ++ fs) ≠ [] && (is ++ fs).all isDigitChar then
        some (sign * (natOfDigits (is ++ fs) : ℚ) / (10 : ℚ) ^ fs.length)
      else none
    | _ => none
  match stripChars s.data with
  | '-' :: ds => body ds (-1)
  | '+' :: ds => body ds 1
  | ds => body ds 1

/-- Python `"sep".join(parts)` for a one-character separator. -/
def joinWith (sep : String) (parts : List String) : String :=
  String.intercalate sep parts

/-! ### Transform B: `modify_vcf_ces1a2_ces1` position remap
(`core/vcf_processor.py`, lines 107-145). -/

def LOW_POS_THRESHOLD : Int := 2358

def HIGH_POS_THRESHOLD : Int := 32634

def BASE_OFFSET : Int := 55758218

def HIGH_OFFSET_BASE : Int := 55834270

def HIGH_OFFSET_SUBTRACT : Int := 72745

/-- The position lambda of `modify_vcf_ces1a2_ces1`:
`lambda x: BASE_OFFSET + x if x < LOW_POS_THRESHOLD
 else HIGH_OFFSET_BASE - (HIGH_OFFSET_SUBTRACT - x) if x > HIGH_POS_THRESHOLD
 else x`. -/
def ces1a2Pos (x : Int) : Int :=
  if x < LOW_POS_THRESHOLD then BASE_OFFSET + x
  else if x > HIGH_POS_THRESHOLD then HIGH_OFFSET_BASE - (HIGH_OFFSET_SUBTRACT - x)
  else x

/-! ### VCF record model (7 canonical columns) -/

/-- One data row of the 7-column table built by `annotate_vcf_with_entrez`
(`pd.DataFrame(vcf_data, columns=["CHROM","POS","ID","REF","ALT","QUAL","SAMPLE"])`). -/
structure VRec where
  chrom : String
  pos : String
  id : String
  ref : String
  alt : String
  qual : String
  sample : String
deriving DecidableEq, Inhabited

/-- Replace the `ID` cell of a record (`vcf.at[variant_idx, "ID"] = rsid`). -/
def VRec.setId (r : VRec) (v : String) : VRec :=
  ⟨r.chrom, r.pos, v, r.ref, r.alt, r.qual, r.sample⟩

/-- Tab-join the 7 canonical columns of one record, as written by the
serialization loops of `entrez_api.py`. -/
def serializeRec (r : VRec) : String :=
  joinWith "\t" [r.chrom, r.pos, r.id, r.ref, r.alt, r.qual, r.sample]

/-- One parsed data line of `annotate_vcf_with_entrez`: at least 7 fields
keeps the first 7, exactly 6 fields gets an empty `SAMPLE`, fewer is
skipped as malformed. -/
def parseDataLine (line : String) : Option VRec :=
  let parts := pySplit line '\t'
  if parts.length ≥ 7 then
    some ⟨parts.getD 0 "", parts.getD 1 "", parts.getD 2 "", parts.getD 3 "",
          parts.getD 4 "", parts.getD 5 "", parts.getD 6 ""⟩
  else if parts.length ≥ 6 then
    some ⟨parts.getD 0 "", parts.getD 1 "", parts.getD 2 "", parts.getD 3 "",
          parts.getD 4 "", parts.getD 5 "", ""⟩
  else none

/-- Model of `data_lines`: the stripped non-comment non-blank lines of the file. -/
def dataLinesOf (lines : List String) : List String :=
  lines.filterMap fun l =>
    if pyStartsWith l "#" then none
    else if pyStrip l = "" then none
    else some (pyStrip l)

/-- Model of `header_lines` in `annotate_vcf_with_entrez`: every line starting with `#`. -/
def headerLinesOf (lines : List String) : List String :=
  lines.filter fun l => pyStartsWith l "#"

/-- Model of `vcf_data` in `annotate_vcf_with_entrez`: the parsed 7-column rows. -/
def parseVcfData (lines : List String) : List VRec :=
  (dataLinesOf lines).filterMap parseDataLine

/-! ### Remote annotation client: `fetch_rsid_entrez`
(`core/entrez_api.py`, lines 48-107).

The remote service is abstracted as a function from attempt number to an
outcome: either a raised exception (network failure, non-2xx response,
malformed payload — anything caught by the `except` clause) or a
successfully parsed `IdList`. -/

/-- Outcome of one `Entrez.esearch` + `Entrez.read` attempt. -/
inductive Attempt where
  | exc (msg : String)
  | ok (idList : List String)
deriving DecidableEq

/-- Whether the attempt raised. -/
def Attempt.isFailure : Attempt → Bool
  | .exc _ => true
  | .ok _ => false

/-- The chromosome-format handling at the top of `fetch_rsid_entrez`:
RefSeq accessions have the `NC_0000` prefix removed and are cut at the
first dot. -/
def chromNumOf (chromosome : String) : String :=
  if pyStartsWith chromosome "NC_" then
    (pySplit (String.mk (chromosome.data.drop 7)) '.').getD 0 ""
  else chromosome

/-- The esearch query term built from the chromosome number and position,
joined as chrom-number, the CHR tag, AND, position, the POS tag. -/
def queryOf (chromosome position : String) : String :=
  chromNumOf chromosome ++ "[CHR] AND " ++ position ++ "[POS]"

/-- The retry loop of `fetch_rsid_entrez`, by remaining-iteration fuel.
`attempt` is the 0-based loop counter; the result carries the returned
value, the list of backoff sleeps (in seconds, as exact rationals) and
the number of attempts consumed.  A successful attempt returns the joined
`rs`-prefixed ids (or `none` for an empty `IdList`); a raised attempt
sleeps `1.5 * (attempt + 1)` seconds and retries unless it was the last
allowed attempt. -/
def fetchGo (attempts : Nat → Attempt) (attempt : Nat) : Nat → Option String × List ℚ × Nat
  | 0 => (none, [], 0)
  | fuel + 1 =>
    match attempts attempt with
    | .ok ids =>
      (if ids.isEmpty then none
       else some (joinWith "," (ids.map fun r => "rs" ++ r)), [], 1)
    | .exc _ =>
      match fuel with
      | 0 => (none, [], 1)
      | fuel' + 1 =>
        let rest := fetchGo attempts (attempt + 1) (fuel' + 1)
        (rest.1, (3 / 2 : ℚ) * ((attempt : ℚ) + 1) :: rest.2.1, rest.2.2 + 1)

/-- Model of `fetch_rsid_entrez(chromosome, position, max_retries=5)`.  Here `emailSet`
models whether `Entrez.email` is configured (checked inside the loop
before the first request); the rate-limiter semaphore and inter-request
spacing do not affect the returned value and are not modelled.  The
result is `(returned value, backoff sleeps, attempts consumed)`; the
function is total, so no exception ever escapes to the caller. -/
def fetchRsidEntrez (emailSet : Bool) (chromosome position : String)
    (attempts : Nat → Attempt) (maxRetries : Nat) : Option String × List ℚ × Nat :=
  let _query := queryOf chromosome position
  if emailSet then fetchGo attempts 0 maxRetries
  else (none, [], 0)

/-! ### Batch orchestration: `fetch_rsid_batch` and
`annotate_vcf_with_entrez` (`core/entrez_api.py`, lines 110-264).

The single-lookup client is abstracted as
`lookup : String → String → Option String` (instantiated by the first
component of `fetchRsidEntrez`); which batches raise inside the worker is
abstracted as `failed : Nat → Bool`; the order in which
`concurrent.futures.as_completed` yields the batch futures is abstracted
as `order : List Nat`, a permutation of the batch indices. -/

/-- Python `range(b * bs, min((b + 1) * bs, total))`, the variant indices
of batch `b` (also the shape `range(i, min(i + bs, total))` with
`i = b * bs` used when the batches are built). -/
def batchIndices (bs total b : Nat) : List Nat :=
  List.range' (b * bs) (min (b * bs + bs) total - b * bs)

/-- Number of batches: the length of `range(0, total, bs)`. -/
def numBatches (bs total : Nat) : Nat :=
  (total + bs - 1) / bs

/-- The batch tuple `(batch_index, [(j, (CHROM, POS, ID)) for j in batch])`
prepared by `annotate_vcf_with_entrez` before dispatch. -/
def mkBatch (rows : List VRec) (bs b : Nat) : Nat × List (Nat × String × String × String) :=
  (b, (batchIndices bs rows.length b).map fun j =>
    (j, (rows.getD j default).chrom, (rows.getD j default).pos, (rows.getD j default).id))

/-- Model of `fetch_rsid_batch(batch_data)`: look up records whose `ID` is `"."` or
`"NORSID"`, mapping a `None` lookup result to `"NORSID"`; keep any other
existing id untouched. -/
def fetchRsidBatch (lookup : String → String → Option String)
    (batchData : Nat × List (Nat × String × String × String)) :
    Nat × List (Nat × String) :=
  (batchData.1, batchData.2.map fun v =>
    match v with
    | (variantIdx, c, p, currentId) =>
      if currentId = "." || currentId = "NORSID" then
        (variantIdx, (lookup c p).getD "NORSID")
      else (variantIdx, currentId))

/-- The results recorded for batch `b`: the worker result on success, or
the dummy `[(i, "NORSID") for i in range(b * bs, min((b + 1) * bs, total))]`
when the batch future raised. -/
def resultsOf (lookup : String → String → Option String) (failed : Nat → Bool)
    (rows : List VRec) (bs b : Nat) : List (Nat × String) :=
  if failed b then (batchIndices bs rows.length b).map fun i => (i, "NORSID")
  else (fetchRsidBatch lookup (mkBatch rows bs b)).2

/-- Apply one batch's results back into the table:
`for variant_idx, rsid in results: vcf.at[variant_idx, "ID"] = rsid`. -/
def applyResults (tbl : List VRec) (results : List (Nat × String)) : List VRec :=
  results.foldl (fun t vr => t.set vr.1 ((t.getD vr.1 default).setId vr.2)) tbl

/-- The reassembly phase of `annotate_vcf_with_entrez`: the results dict
is keyed by batch index in completion order, and applied back over
`sorted(batch_results.keys())`. -/
def annotateRows (bs : Nat) (lookup : String → String → Option String)
    (failed : Nat → Bool) (order : List Nat) (rows : List VRec) : List VRec :=
  let batchResults := order.map fun b => (b, resultsOf lookup failed rows bs b)
  let sortedKeys := (batchResults.map Prod.fst).insertionSort (· ≤ ·)
  sortedKeys.foldl
    (fun tbl b =>
      match batchResults.find? (fun p => p.1 == b) with
      | some p => applyResults tbl p.2
      | none => tbl)
    rows

/-- Model of `annotate_vcf_with_entrez` as a file transform (lines in, lines out):
parse, batch, annotate, reassemble, then write the `#`-prefixed header
lines followed by the 7-column serialization of every row.  `none` models
the no-valid-data `ValueError` path, on which the sequential fallback
raises the same error and no annotated data is produced. -/
def annotateVcf (bs : Nat) (lookup : String → String → Option String)
    (failed : Nat → Bool) (order : List Nat) (lines : List String) :
    Option (List String) :=
  let rows := parseVcfData lines
  if rows.isEmpty then none
  else some (headerLinesOf lines ++ (annotateRows bs lookup failed order rows).map serializeRec)

/-- The identifier the annotation contract assigns to input row `i`
holding record `r`: the batch containing `i` is `i / bs`; a failed batch
forces the sentinel, an unknown id (`"."`/`"NORSID"`) is looked up with
`None` mapped to the sentinel, and any other id is kept. -/
def updatedId (lookup : String → String → Option String) (failed : Nat → Bool)
    (bs i : Nat) (r : VRec) : String :=
  if failed (i / bs) then "NORSID"
  else if r.id = "." || r.id = "NORSID" then (lookup r.chrom r.pos).getD "NORSID"
  else r.id

/-- Per-index write loop: the common shape of `applyResults` once each
batch result is expressed as `(index, value-at-index)` pairs. -/
def writeIds (v : Nat → String) (idxs : List Nat) (tbl : List VRec) : List VRec :=
  idxs.foldl (fun t i => t.set i ((t.getD i default).setId (v i))) tbl

/-! ### `validate_vcf_file` (`core/vcf_processor.py`, lines 14-75). -/

/-- The filesystem view `validate_vcf_file` interacts with: whether
`os.path.exists` succeeds, the path string, and the outcome of reading
the file (`.error e` models an exception raised while reading, caught by
the outer `except`). -/
structure FsFile where
  present : Bool
  path : String
  content : Except String (List String)

/-- The `required_columns` list of `validate_vcf_file`. -/
def requiredColumns : List String :=
  ["#CHROM", "POS", "ID", "REF", "ALT", "QUAL", "FILTER"]

/-- The per-row check of the bounded validation loop: data row `i`
(0-based) counted from `data_start_idx`; blank rows are skipped, short
rows and non-numeric `POS` values produce the early `(False, message)`
returns. -/
def checkDataRow (lines : List String) (dataStart i : Nat) : Option (Bool × String) :=
  let dataLine := pyStrip (lines.getD (dataStart + i) "")
  if dataLine = "" then none
  else
    let dataParts := pySplit dataLine '\t'
    if dataParts.length < requiredColumns.length then
      some (false, "Data row " ++ toString (i + 1) ++ " has insufficient columns ("
        ++ toString dataParts.length ++ " < " ++ toString requiredColumns.length ++ ")")
    else
      match pyInt (dataParts.getD 1 "") with
      | some _ => none
      | none => some (false, "Data row " ++ toString (i + 1)
          ++ ": POS column must be numeric, got \x27" ++ dataParts.getD 1 "" ++ "\x27")

/-- Model of `validate_vcf_file(vcf_path)`: total translation of every branch;
the returned pair is `(is_valid, message)`. -/
def validateVcfFile (f : FsFile) : Bool × String :=
  if f.present = false then (false, "File does not exist: " ++ f.path)
  else if pyEndsWith (pyLower f.path) ".vcf" = false then
    (false, "File must have .vcf extension")
  else
    match f.content with
    | .error e => (false, "Error reading VCF file: " ++ e)
    | .ok lines =>
      if lines.isEmpty then (false, "VCF file is empty")
      else
        let headerLines := lines.filter fun l => pyStartsWith l "##"
        match lines.find? (fun l => pyStartsWith l "#CHROM") with
        | none => (false, "VCF file missing column header line (#CHROM)")
        | some columnHeaderLine =>
          let columns := pySplit (pyStrip columnHeaderLine) '\t'
          match requiredColumns.find? (fun c => columns.contains c = false) with
          | some c => (false, "Missing required column: " ++ c)
          | none =>
            let dataStart := headerLines.length + 1
            if lines.length ≤ dataStart then (false, "VCF file has no data rows")
            else
              match (List.range (min 3 (lines.length - dataStart))).findSome?
                  (fun i => checkDataRow lines dataStart i) with
              | some r => r
              | none => (true, "VCF file is valid")

/-! ### `clean_vcf` (`core/vcf_processor.py`, lines 148-199). -/

/-- The data rows seen by `pd.read_csv(input, comment="#", sep="\t")`:
non-comment, non-blank lines split on tabs. -/
def readCsvRows (lines : List String) : List (List String) :=
  lines.filterMap fun l =>
    if pyStartsWith l "#" then none
    else if pyStrip l = "" then none
    else some (pySplit l '\t')

/-- The column-count dispatch of `clean_vcf`: 8 columns selects the
first 6 plus an empty `SAMPLE`; 10 columns keeps column 9 as `SAMPLE`;
more than 8 keeps the last column as `SAMPLE`; any other count makes the
pandas column assignment raise (`none`). -/
def cleanedRows (rows : List (List String)) (numCols : Nat) : Option (List (List String)) :=
  if numCols = 8 then some (rows.map fun r => r.take 6 ++ [""])
  else if numCols = 10 then some (rows.map fun r => r.take 6 ++ [r.getD 9 ""])
  else if numCols > 8 then some (rows.map fun r => r.take 6 ++ [r.getD (numCols - 1) ""])
  else none

/-- Model of `clean_vcf` as a file transform.  The input's `header_lines` are
read but never written; the output header is synthesized (fileformat
line, contig line from the first data row's chromosome, canonical column
line).  `.error` models the wrapped exception raised for an empty data
section or an unhandled column count. -/
def cleanVcf (lines : List String) : Except String (List String) :=
  match readCsvRows lines with
  | [] => .error "VCF cleaning failed: no data"
  | r0 :: tail =>
    match cleanedRows (r0 :: tail) r0.length with
    | none => .error "VCF cleaning failed: unsupported column count"
    | some crows =>
      .ok (["##fileformat=VCFv4.2", "##contig=<ID=" ++ r0.getD 0 "" ++ ">",
            "#CHROM\tPOS\tID\tREF\tALT\tQUAL\tSAMPLE"]
          ++ crows.map (joinWith "\t"))

/-! ### `filter_rsids_vcf` and `filter_significant_rsids`
(`core/vcf_processor.py`, lines 202-269). -/

/-- The rsID filter predicate row set: `vcf[vcf["ID"].str.startswith("rs")]`. -/
def filterRsidsVcf (rows : List VRec) : List VRec :=
  rows.filter fun r => pyStartsWith r.id "rs"

/-- The `filter_rsids_vcf` output lines: data only, no header is written. -/
def filterRsidsFile (rows : List VRec) : List String :=
  (filterRsidsVcf rows).map serializeRec

/-- The pandas comparison `QUAL_NUMERIC >= qual_threshold` where
`QUAL_NUMERIC = pd.to_numeric(QUAL, errors="coerce")`: a `NaN`
(unparseable) quality compares false. -/
def pdGeThreshold (q : Option ℚ) (thr : ℚ) : Bool :=
  match q with
  | some v => v ≥ thr
  | none => false

/-- The row set kept by `filter_significant_rsids`. -/
def filterSignificantRsids (rows : List VRec) (thr : ℚ) : List VRec :=
  rows.filter fun r => pdGeThreshold (pyFloat r.qual) thr

/-- The `filter_significant_rsids` output lines: data only, no header. -/
def filterSignificantFile (rows : List VRec) (thr : ℚ) : List String :=
  (filterSignificantRsids rows thr).map serializeRec

/-! ### Chromosome notation: `SandboxProcessor._format_chromosome`
(`core/sandbox.py`, lines 144-170) and `normalize_chrom`
(`additional scripts/split_vcf_by_chromosome.py`, lines 21-75). -/

/-- Python `str.replace(pat, repl)` (all non-overlapping occurrences,
left to right), with list-length fuel for structural recursion. -/
def replaceListAux (pat repl : List Char) : Nat → List Char → List Char
  | _, [] => []
  | 0, l => l
  | fuel + 1, c :: cs =>
    if pat.isPrefixOf (c :: cs) then
      repl ++ replaceListAux pat repl fuel ((c :: cs).drop pat.length)
    else c :: replaceListAux pat repl fuel cs

/-- Python `s.replace(pat, repl)` for nonempty `pat` (the only use here). -/
def pyReplace (s pat repl : String) : String :=
  if pat = "" then s
  else String.mk (replaceListAux pat.data repl.data s.data.length s.data)

/-- Python `str.isdigit` (ASCII digits). -/
def pyIsDigitStr (s : String) : Bool :=
  !s.data.isEmpty && s.data.all isDigitChar

/-- Maximal runs of digits, i.e. `re.findall(r"(\d+)", s)`. -/
def digitRunsAux : List Char → List Char → List (List Char)
  | [], acc => if acc.isEmpty then [] else [acc.reverse]
  | c :: cs, acc =>
    if isDigitChar c then digitRunsAux cs (c :: acc)
    else if acc.isEmpty then digitRunsAux cs []
    else acc.reverse :: digitRunsAux cs []

/-- Model of the regex digit-run search used by `normalize_chrom`. -/
def digitRuns (s : String) : List String :=
  (digitRunsAux s.data []).map String.mk

/-- Python idiom: strip leading zeros, defaulting to a single zero. -/
def lstripZerosOr0 (s : String) : String :=
  let t := s.data.dropWhile (fun c => c = '0')
  if t.isEmpty then "0" else String.mk t

/-- Zero padding of a number to a fixed width, as the Python format spec 06d does. -/
def padZeros (n width : Nat) : String :=
  let s := toString n
  String.mk (List.replicate (width - s.length) '0') ++ s

/-- Model of `SandboxProcessor._format_chromosome(chrom_id, format_type)`. -/
def formatChromosome (chromId formatType : String) : String :=
  let numericChrom :=
    (pySplit (pyReplace (pyReplace chromId "chr" "") "NC_0000" "") '.').getD 0 ""
  if formatType = "RefSeq" then
    if pyIsDigitStr numericChrom then
      "NC_" ++ padZeros (natOfDigits numericChrom.data) 6 ++ ".10"
    else "NC_0000" ++ numericChrom ++ ".10"
  else if formatType = "UCSC" then "chr" ++ numericChrom
  else if formatType = "Ensembl" then numericChrom
  else if formatType = "numeric" then numericChrom
  else chromId

/-- Model of `normalize_chrom(chrom)`: strip, drop a case-insensitive `chr`
prefix, then: for RefSeq-style tokens take the LAST digit run, strip its
leading zeros, and accept 1-21; reject X/Y/M/MT; accept all-digit tokens
in 1-21; otherwise fall back to the last digit run again.  The RefSeq
branch falls through when the token has no digit run at all. -/
def normalizeChrom (chrom : String) : Option String :=
  if chrom = "" then none
  else
    let c1 := pyStrip chrom
    let c2 := if pyStartsWith (pyLower c1) "chr" then String.mk (c1.data.drop 3) else c1
    let rangeCheck : Nat → Option String := fun n =>
      if 1 ≤ n && n ≤ 21 then some (toString n) else none
    let ncBranch : Option (Option String) :=
      if pyStartsWith (pyUpper c2) "NC_" then
        match (digitRuns c2).getLast? with
        | some last => some (rangeCheck (natOfDigits (lstripZerosOr0 last).data))
        | none => none
      else none
    match ncBranch with
    | some r => r
    | none =>
      if pyUpper c2 = "X" || pyUpper c2 = "Y" || pyUpper c2 = "M" || pyUpper c2 = "MT" then
        none
      else if pyIsDigitStr c2 then rangeCheck (natOfDigits c2.data)
      else
        match (digitRuns c2).getLast? with
        | some last => rangeCheck (natOfDigits (lstripZerosOr0 last).data)
        | none => none

/-! ### `SandboxProcessor.validate_equation` and
`SandboxProcessor.apply_custom_modification` (`core/sandbox.py`,
lines 21-110).

The caller-supplied equation string is handed to Python `eval` with the
enclosing scope visible.  The integer-valued fragment of that scope is
modelled explicitly: both the validation loop and the application loop
bind the loop variable `pos` in addition to the equation variable `x`
(module globals such as `os` and `pd` are also reachable by name but are
not integer-valued, so they are outside this fragment). -/

/-- Arithmetic expressions over names, the fragment of Python expressions
relevant here. -/
inductive PyExpr where
  | num (n : Int)
  | var (name : String)
  | add (a b : PyExpr)
  | sub (a b : PyExpr)
  | mul (a b : PyExpr)
deriving DecidableEq

/-- Evaluation of an expression under a name environment, as Python eval does; an unbound name
raises `NameError`. -/
def evalExpr (env : String → Option Int) : PyExpr → Except String Int
  | .num n => .ok n
  | .var s =>
    match env s with
    | some v => .ok v
    | none => .error ("name \x27" ++ s ++ "\x27 is not defined")
  | .add a b => do pure ((← evalExpr env a) + (← evalExpr env b))
  | .sub a b => do pure ((← evalExpr env a) - (← evalExpr env b))
  | .mul a b => do pure ((← evalExpr env a) * (← evalExpr env b))

/-- The names `eval` can resolve to integers at both call sites in
`sandbox.py`: `x` and the loop variable `pos`, both bound to the current
position. -/
def sandboxEnv (p : Int) (name : String) : Option Int :=
  if name = "x" then some p
  else if name = "pos" then some p
  else none

/-- Default `test_positions` of `validate_equation`. -/
def defaultTestPositions : List Int := [100, 1000, 10000, 100000]

/-- The test loop of `validate_equation`: evaluate at each test position,
failing on an evaluation error or a negative result. -/
def validateGo (eq : PyExpr) : List Int → Except String (List (Int × Int))
  | [] => .ok []
  | p :: ps =>
    match evalExpr (sandboxEnv p) eq with
    | .error e => .error ("Equation error at position " ++ toString p ++ ": " ++ e)
    | .ok r =>
      if r < 0 then
        .error ("Equation produced negative position " ++ toString r
          ++ " for input " ++ toString p)
      else
        match validateGo eq ps with
        | .error e => .error e
        | .ok rest => .ok ((p, r) :: rest)

/-- Model of `validate_equation(equation_str, test_positions)` (the equation is
given as its parsed expression; every result in this fragment is an
`int`, so the numeric-type check always passes). -/
def validateEquation (eq : PyExpr) (testPositions : List Int) :
    Bool × String × List (Int × Int) :=
  match validateGo eq testPositions with
  | .ok results => (true, "Equation is valid", results)
  | .error e => (false, e, [])

/-- The application loop of `apply_custom_modification`. -/
def applyGo (eq : PyExpr) : List Int → Except String (List Int)
  | [] => .ok []
  | p :: ps =>
    match evalExpr (sandboxEnv p) eq with
    | .error e => .error ("Equation failed for position " ++ toString p ++ ": " ++ e)
    | .ok r =>
      match applyGo eq ps with
      | .error e => .error e
      | .ok rest => .ok (r :: rest)

/-- The position-rewriting core of `apply_custom_modification`: validate
against the sample positions, then evaluate the equation on every real
position of the file. -/
def applyCustomModification (eq : PyExpr) (positions : List Int) :
    Except String (List Int) :=
  if (validateEquation eq defaultTestPositions).1 = false then
    .error ("Invalid equation: " ++ (validateEquation eq defaultTestPositions).2.1)
  else applyGo eq positions

/-- An expression references some identifier other than the bound
variable `x`. -/
def mentionsOtherThanX : PyExpr → Bool
  | .num _ => false
  | .var s => s ≠ "x"
  | .add a b => mentionsOtherThanX a || mentionsOtherThanX b
  | .sub a b => mentionsOtherThanX a || mentionsOtherThanX b
  | .mul a b => mentionsOtherThanX a || mentionsOtherThanX b

/-! ### Helper lemmas -/

theorem setId_setId (r : VRec) (a b : String) : (r.setId a).setId b = r.setId b := rfl

theorem getElem?_writeIds (v : Nat → String) (idxs : List Nat) (tbl : List VRec) (j : Nat) :
    (writeIds v idxs tbl)[j]? =
      if j ∈ idxs then (tbl[j]?).map (fun r => r.setId (v j)) else tbl[j]? := by
  induction idxs generalizing tbl with
  | nil => simp [writeIds]
  | cons i is ih =>
    have hstep : writeIds v (i :: is) tbl
        = writeIds v is (tbl.set i ((tbl.getD i default).setId (v i))) := rfl
    rw [hstep, ih]
    by_cases hji : j = i
    · subst hji
      have hset : (tbl.set j ((tbl.getD j default).setId (v j)))[j]?
          = (tbl[j]?).map (fun r => r.setId (v j)) := by
        cases hj : tbl[j]? with
        | none =>
          have : tbl.length ≤ j := by
            by_contra hlt
            simp [List.getElem?_eq_getElem (Nat.lt_of_not_le hlt)] at hj
          simp [List.set_eq_of_length_le this, hj]
        | some r =>
          have hlt : j < tbl.length := by
            by_contra hge
            simp [List.getElem?_eq_none (Nat.le_of_not_lt hge)] at hj
          rw [List.getElem?_set_self hlt]
          simp [List.getD_eq_getElem?_getD, hj]
      have hmem : j ∈ j :: is := List.mem_cons_self j is
      by_cases hjs : j ∈ is
      · rw [if_pos hjs, if_pos hmem, hset, Option.map_map]
        have : ((fun r => VRec.setId r (v j)) ∘ fun r => VRec.setId r (v j))
            = fun r => VRec.setId r (v j) := by
          funext r
          simp [Function.comp, setId_setId]
        rw [this]
      · rw [if_neg hjs, if_pos hmem, hset]
    · have hset : (tbl.set i ((tbl.getD i default).setId (v i)))[j]?  = tbl[j]? :=
        List.getElem?_set_ne (fun h => hji h.symm)
      by_cases hjs : j ∈ is
      · rw [if_pos hjs, if_pos (List.mem_cons_of_mem i hjs), hset]
      · rw [if_neg hjs, hset, if_neg (by simp [hji, hjs])]

theorem getElem?_foldWrites (v : Nat → String) (bss : List (List Nat))
    (tbl : List VRec) (j : Nat) :
    (bss.foldl (fun t idxs => writeIds v idxs t) tbl)[j]? =
      if j ∈ bss.flatten then (tbl[j]?).map (fun r => r.setId (v j)) else tbl[j]? := by
  induction bss generalizing tbl with
  | nil => simp
  | cons idxs rest ih =>
    rw [List.foldl_cons, ih, getElem?_writeIds]
    by_cases h1 : j ∈ idxs
    · have hmem : j ∈ (idxs :: rest).flatten := by
        rw [List.mem_flatten]
        exact ⟨idxs, List.mem_cons_self _ _, h1⟩
      by_cases h2 : j ∈ rest.flatten
      · rw [if_pos h2, if_pos h1, if_pos hmem, Option.map_map]
        have : ((fun r => VRec.setId r (v j)) ∘ fun r => VRec.setId r (v j))
            = fun r => VRec.setId r (v j) := by
          funext r
          simp [Function.comp, setId_setId]
        rw [this]
      · rw [if_neg h2, if_pos h1, if_pos hmem]
    · by_cases h2 : j ∈ rest.flatten
      · rw [if_pos h2, if_neg h1,
          if_pos (by rw [List.mem_flatten] at h2 ⊢; exact ⟨h2.choose, List.mem_cons_of_mem _ h2.choose_spec.1, h2.choose_spec.2⟩)]
      · rw [if_neg h2, if_neg h1, if_neg (by
          rw [List.mem_flatten]
          rintro ⟨l, hl, hjl⟩
          rcases List.mem_cons.mp hl with rfl | hl2
          · exact h1 hjl
          · exact h2 (List.mem_flatten.mpr ⟨l, hl2, hjl⟩))]

theorem mem_range'_iff (s n m : Nat) : m ∈ List.range' s n ↔ s ≤ m ∧ m < s + n := by
  rw [List.mem_range']
  constructor
  · rintro ⟨i, hi, rfl⟩
    omega
  · rintro ⟨h1, h2⟩
    exact ⟨m - s, by omega, by omega⟩

theorem mem_batchIndices_div (bs total b j : Nat) (hbs : 0 < bs)
    (hj : j ∈ batchIndices bs total b) : j / bs = b := by
  rw [batchIndices, mem_range'_iff] at hj
  obtain ⟨h1, h2⟩ := hj
  have hmin : min (b * bs + bs) total ≤ b * bs + bs := Nat.min_le_left _ _
  exact Nat.div_eq_of_lt_le (by omega) (by rw [Nat.succ_mul]; omega)

theorem mem_flatten_batches (bs total j : Nat) (hbs : 0 < bs) :
    (j ∈ ((List.range (numBatches bs total)).map (batchIndices bs total)).flatten) ↔ j < total := by
  rw [List.mem_flatten]
  constructor
  · rintro ⟨l, hl, hj⟩
    rw [List.mem_map] at hl
    obtain ⟨b, _, rfl⟩ := hl
    rw [batchIndices, mem_range'_iff] at hj
    have hmin : min (b * bs + bs) total ≤ total := Nat.min_le_right _ _
    omega
  · intro hj
    have h1 : bs * (j / bs) + j % bs = j := Nat.div_add_mod j bs
    have h2 : j % bs < bs := Nat.mod_lt _ hbs
    have hc : j / bs * bs = bs * (j / bs) := Nat.mul_comm _ _
    refine ⟨batchIndices bs total (j / bs), List.mem_map_of_mem _ ?_, ?_⟩
    · rw [List.mem_range, numBatches]
      have h3 : total + bs - 1 = (total - 1) + bs := by omega
      rw [h3, Nat.add_div_right _ hbs]
      have h4 : j / bs ≤ (total - 1) / bs := Nat.div_le_div_right (by omega)
      omega
    · rw [batchIndices, mem_range'_iff]
      rcases Nat.le_total (j / bs * bs + bs) total with hle | hle
      · rw [Nat.min_eq_left hle]
        omega
      · rw [Nat.min_eq_right hle]
        omega

theorem insertionSort_of_perm_range (order : List Nat) (nb : Nat)
    (h : order.Perm (List.range nb)) :
    order.insertionSort (· ≤ ·) = List.range nb :=
  List.eq_of_perm_of_sorted ((List.perm_insertionSort _ order).trans h)
    (List.sorted_insertionSort _ order) (List.sorted_le_range nb)

theorem find?_keyed (f : Nat → List (Nat × String)) (l : List Nat) (b : Nat) (hb : b ∈ l) :
    (l.map fun x => (x, f x)).find? (fun p => p.1 == b) = some (b, f b) := by
  induction l with
  | nil => cases hb
  | cons x xs ih =>
    by_cases hx : x = b
    · subst hx
      simp [List.find?_cons]
    · have hb2 : b ∈ xs := by
        rcases List.mem_cons.mp hb with h | h
        · exact absurd h.symm hx
        · exact h
      have hxb : (x == b) = false := by simp [hx]
      simp only [List.map_cons, List.find?_cons, hxb]
      exact ih hb2

theorem foldl_congr_mem {α β : Type} {f g : β → α → β} (l : List α) (init : β)
    (h : ∀ a ∈ l, ∀ b, f b a = g b a) : l.foldl f init = l.foldl g init := by
  induction l generalizing init with
  | nil => rfl
  | cons x xs ih =>
    rw [List.foldl_cons, List.foldl_cons, h x (List.mem_cons_self x xs),
      ih _ (fun a ha b => h a (List.mem_cons_of_mem x ha) b)]

theorem applyResults_eq_writeIds (lookup : String → String → Option String)
    (failed : Nat → Bool) (rows : List VRec) (bs b : Nat) (hbs : 0 < bs)
    (tbl : List VRec) :
    applyResults tbl (resultsOf lookup failed rows bs b)
      = writeIds (fun j => updatedId lookup failed bs j (rows.getD j default))
          (batchIndices bs rows.length b) tbl := by
  cases hf : failed b with
  | true =>
    rw [resultsOf, if_pos (by rw [hf])]
    rw [applyResults, writeIds, List.foldl_map]
    refine foldl_congr_mem _ _ (fun i hi t => ?_)
    have hdiv := mem_batchIndices_div bs rows.length b i hbs hi
    rw [updatedId, hdiv, hf, if_pos rfl]
  | false =>
    rw [resultsOf, if_neg (by rw [hf]; exact Bool.false_ne_true)]
    rw [fetchRsidBatch, mkBatch, List.map_map]
    rw [applyResults, writeIds, List.foldl_map]
    refine foldl_congr_mem _ _ (fun i hi t => ?_)
    have hdiv := mem_batchIndices_div bs rows.length b i hbs hi
    simp only [Function.comp]
    rw [updatedId, hdiv, hf]
    rw [if_neg (show ¬(false = true) from Bool.false_ne_true)]
    by_cases hid : (rows.getD i default).id = "." ∨ (rows.getD i default).id = "NORSID"
    · have hc : (decide ((rows.getD i default).id = ".")
          || decide ((rows.getD i default).id = "NORSID")) = true := by
        rcases hid with h | h <;> rw [h] <;> rfl
      rw [if_pos hc, if_pos hc]
    · rw [not_or] at hid
      have hc : ¬((decide ((rows.getD i default).id = ".")
          || decide ((rows.getD i default).id = "NORSID")) = true) := by
        simp only [Bool.or_eq_true, decide_eq_true_eq]
        rw [not_or]
        exact hid
      rw [if_neg hc, if_neg hc]

theorem annotateRows_spec (bs : Nat) (lookup : String → String → Option String)
    (failed : Nat → Bool) (order : List Nat) (rows : List VRec) (hbs : 0 < bs)
    (hord : order.Perm (List.range (numBatches bs rows.length))) :
    annotateRows bs lookup failed order rows
      = rows.mapIdx fun i r => r.setId (updatedId lookup failed bs i r) := by
  dsimp only [annotateRows]
  rw [List.map_map]
  have hfst : (Prod.fst ∘ fun b => (b, resultsOf lookup failed rows bs b)) = fun b => b := rfl
  rw [hfst, List.map_id', insertionSort_of_perm_range order _ hord]
  have e2 : (List.range (numBatches bs rows.length)).foldl
      (fun tbl b =>
        match (order.map fun b => (b, resultsOf lookup failed rows bs b)).find?
            (fun p => p.1 == b) with
        | some p => applyResults tbl p.2
        | none => tbl) rows
      = (List.range (numBatches bs rows.length)).foldl
          (fun tbl b =>
            writeIds (fun j => updatedId lookup failed bs j (rows.getD j default))
              (batchIndices bs rows.length b) tbl) rows := by
    refine foldl_congr_mem _ _ (fun b hb tbl => ?_)
    have hbo : b ∈ order := hord.mem_iff.mpr hb
    rw [find?_keyed _ order b hbo]
    exact applyResults_eq_writeIds lookup failed rows bs b hbs tbl
  rw [e2, ← List.foldl_map (batchIndices bs rows.length)
    (fun t idxs => writeIds (fun j => updatedId lookup failed bs j (rows.getD j default)) idxs t)]
  refine (List.mapIdx_eq_iff.mpr ?_).symm
  intro j
  rw [getElem?_foldWrites]
  by_cases hj : j < rows.length
  · rw [if_pos ((mem_flatten_batches bs rows.length j hbs).mpr hj)]
    cases hrow : rows[j]? with
    | none => rfl
    | some r =>
      have hgd : rows.getD j default = r := by
        rw [List.getD_eq_getElem?_getD, hrow]
        rfl
      simp only [Option.map_some', hgd]
  · have hnone : rows[j]? = none := List.getElem?_eq_none (Nat.le_of_not_lt hj)
    rw [if_neg (fun hmem => hj ((mem_flatten_batches bs rows.length j hbs).mp hmem)), hnone]
    rfl



/-! ### Claim theorems -/

theorem updatedId_of_concrete (lookup : String → String → Option String)
    (failed : Nat → Bool) (bs i : Nat) (r : VRec) (hf : failed (i / bs) = false)
    (h1 : r.id ≠ ".") (h2 : r.id ≠ "NORSID") :
    updatedId lookup failed bs i r = r.id := by
  rw [updatedId, hf]
  rw [if_neg (show ¬(false = true) from Bool.false_ne_true)]
  rw [if_neg (by simp [h1, h2])]

theorem setId_own_id (r : VRec) : r.setId r.id = r := rfl

/-- C1: for every parsed input table, every positive batch size, every
lookup oracle, every set of failed batches and every batch completion
order (any permutation of the batch indices), `annotate_vcf_with_entrez`
writes the header lines followed by exactly the input rows in input
order, the row at index `i` being the input row at index `i` with only
its `ID` cell rewritten; the result does not depend on the completion
order. -/
theorem annotate_output_order_eq_input_order
    (bs : Nat) (lookup : String → String → Option String) (failed : Nat → Bool)
    (order : List Nat) (lines : List String) (hbs : 0 < bs)
    (hord : order.Perm (List.range (numBatches bs (parseVcfData lines).length)))
    (hne : (parseVcfData lines).isEmpty = false) :
    annotateVcf bs lookup failed order lines
      = some (headerLinesOf lines
          ++ ((parseVcfData lines).mapIdx
              (fun i r => r.setId (updatedId lookup failed bs i r))).map serializeRec) := by
  dsimp only [annotateVcf]
  rw [hne, if_neg (show ¬(false = true) from Bool.false_ne_true)]
  rw [annotateRows_spec bs lookup failed order (parseVcfData lines) hbs hord]

/-- Witness for C1: a 4-row table in 2 batches completed out of order
(`[1, 0]`) still produces rows in input order, each at its input index. -/
theorem annotate_output_order_eq_input_order_witness :
    annotateVcf 2 (fun _ p => if p = "101" then some "rs101" else none)
      (fun _ => false) [1, 0]
      ["##src=w", "#CHROM\tPOS\tID\tREF\tALT\tQUAL\tSAMPLE",
        "16\t100\trs1\tA\tG\t50\ts1", "16\t101\t.\tA\tG\t40\ts2",
        "16\t102\tNORSID\tA\tG\t30\ts3", "16\t103\trs4\tA\tG\t20\ts4"]
      = some ["##src=w", "#CHROM\tPOS\tID\tREF\tALT\tQUAL\tSAMPLE",
        "16\t100\trs1\tA\tG\t50\ts1", "16\t101\trs101\tA\tG\t40\ts2",
        "16\t102\tNORSID\tA\tG\t30\ts3", "16\t103\trs4\tA\tG\t20\ts4"] := by
  rw [annotate_output_order_eq_input_order 2 _ _ [1, 0] _ (by decide) (by decide) (by decide)]
  decide

/-- Counterexample to C2: a record whose identifier is the concrete value
`"rs123"` is overwritten with `"NORSID"` when the batch containing it
fails, so the pass-through guarantee does not hold on the batch-failure
path. -/
theorem annotate_batch_failure_changes_concrete_id :
    annotateVcf 2 (fun _ _ => none) (fun b => b == 0) [0]
      ["#CHROM\tPOS\tID\tREF\tALT\tQUAL\tSAMPLE", "16\t100\trs123\tA\tG\t50\ts"]
      = some ["#CHROM\tPOS\tID\tREF\tALT\tQUAL\tSAMPLE", "16\t100\tNORSID\tA\tG\t50\ts"]
    ∧ (parseVcfData
        ["#CHROM\tPOS\tID\tREF\tALT\tQUAL\tSAMPLE", "16\t100\trs123\tA\tG\t50\ts"]).getD 0 default
      = ⟨"16", "100", "rs123", "A", "G", "50", "s"⟩ := by
  constructor
  · decide
  · decide

/-- C2 (amended): on a run where no batch fails, every record whose
identifier is neither `"."` nor `"NORSID"` appears unchanged at its own
index in the output, for every lookup oracle (the conclusion does not
mention the oracle, so the remote client's answers can never influence
such a record); consequently re-running annotation on a table with no
unknown-sentinel identifiers and no batch failures leaves every row
unchanged. -/
theorem annotate_concrete_ids_preserved_without_batch_failure
    (bs : Nat) (lookup : String → String → Option String) (failed : Nat → Bool)
    (order : List Nat) (rows : List VRec) (hbs : 0 < bs)
    (hord : order.Perm (List.range (numBatches bs rows.length)))
    (hok : ∀ b, failed b = false) :
    (∀ (i : Nat) (r : VRec), rows[i]? = some r → r.id ≠ "." → r.id ≠ "NORSID" →
      (annotateRows bs lookup failed order rows)[i]? = some r)
    ∧ ((∀ r ∈ rows, r.id ≠ "." ∧ r.id ≠ "NORSID") →
      annotateRows bs lookup failed order rows = rows) := by
  have hspec := annotateRows_spec bs lookup failed order rows hbs hord
  constructor
  · intro i r hi h1 h2
    rw [hspec, List.getElem?_mapIdx, hi, Option.map_some',
      updatedId_of_concrete lookup failed bs i r (hok (i / bs)) h1 h2, setId_own_id]
  · intro hall
    rw [hspec]
    refine List.ext_getElem? (fun i => ?_)
    rw [List.getElem?_mapIdx]
    cases hi : rows[i]? with
    | none => rfl
    | some r =>
      obtain ⟨h1, h2⟩ := hall r (List.getElem?_mem hi)
      rw [Option.map_some',
        updatedId_of_concrete lookup failed bs i r (hok (i / bs)) h1 h2, setId_own_id]

/-- Witness for the amended C2: an already-annotated 3-row table run with
completion order `[1, 0]` and an oracle that would return a different id;
every row is unchanged. -/
theorem annotate_concrete_ids_preserved_witness :
    (annotateRows 2 (fun _ _ => some "rsX") (fun _ => false) [1, 0]
        [⟨"16", "1", "rs1", "A", "G", "9", ""⟩, ⟨"16", "2", "rs2", "A", "G", "9", ""⟩,
          ⟨"16", "3", "rs3", "A", "G", "9", ""⟩])[1]?
      = some ⟨"16", "2", "rs2", "A", "G", "9", ""⟩
    ∧ annotateRows 2 (fun _ _ => some "rsX") (fun _ => false) [1, 0]
        [⟨"16", "1", "rs1", "A", "G", "9", ""⟩, ⟨"16", "2", "rs2", "A", "G", "9", ""⟩,
          ⟨"16", "3", "rs3", "A", "G", "9", ""⟩]
      = [⟨"16", "1", "rs1", "A", "G", "9", ""⟩, ⟨"16", "2", "rs2", "A", "G", "9", ""⟩,
          ⟨"16", "3", "rs3", "A", "G", "9", ""⟩] :=
  ⟨(annotate_concrete_ids_preserved_without_batch_failure 2 _ _ [1, 0] _ (by decide)
      (by decide) (fun _ => rfl)).1 1 _ (by decide) (by decide) (by decide),
   (annotate_concrete_ids_preserved_without_batch_failure 2 _ _ [1, 0] _ (by decide)
      (by decide) (fun _ => rfl)).2 (by decide)⟩

/-- C4: the chromosome round-trip fails for the RefSeq notation: the
formatter emits `NC_000016.10` for chromosome 16, but the normalizer
extracts the LAST digit run of a RefSeq accession, which is the version
suffix `10`, not the chromosome number — contradicting the normalizer's
own docstring example `NC_000016.10 -> 16`.  The round-trip does hold for
the `UCSC`, `Ensembl` and `numeric` notations at 16. -/
theorem refseq_roundtrip_normalize_returns_version :
    formatChromosome "16" "RefSeq" = "NC_000016.10"
    ∧ normalizeChrom "NC_000016.10" = some "10"
    ∧ normalizeChrom (formatChromosome "16" "RefSeq") ≠ some "16"
    ∧ normalizeChrom (formatChromosome "16" "UCSC") = some "16"
    ∧ normalizeChrom (formatChromosome "16" "Ensembl") = some "16"
    ∧ normalizeChrom (formatChromosome "16" "numeric") = some "16" := by
  refine ⟨by decide, by decide, by decide, by decide, by decide, by decide⟩

/-- C5: the expression `pos` references an identifier other than the
bound variable `x`, yet `validate_equation` accepts it (the loop variable
`pos` of the validation loop is visible to `eval`) and
`apply_custom_modification` then evaluates it against real data. -/
theorem validate_equation_accepts_nonbound_identifier :
    mentionsOtherThanX (PyExpr.var "pos") = true
    ∧ validateEquation (PyExpr.var "pos") defaultTestPositions
        = (true, "Equation is valid", [(100, 100), (1000, 1000), (10000, 10000), (100000, 100000)])
    ∧ applyCustomModification (PyExpr.var "pos") [42, 7] = .ok [42, 7] :=
  ⟨by decide, by decide, rfl⟩

/-- C6: Transform B (`modify_vcf_ces1a2_ces1`) is exactly the claimed
piecewise map, including the boundary values 2357, 2358, 32634, 32635. -/
theorem ces1a2_piecewise_remap (p : Int) :
    (0 ≤ p → p < 2358 → ces1a2Pos p = 55758218 + p)
    ∧ (p > 32634 → ces1a2Pos p = 55834270 - (72745 - p))
    ∧ (2358 ≤ p → p ≤ 32634 → ces1a2Pos p = p)
    ∧ ces1a2Pos 2357 = 55760575 ∧ ces1a2Pos 2358 = 2358
    ∧ ces1a2Pos 32634 = 32634 ∧ ces1a2Pos 32635 = 55794160 := by
  refine ⟨fun _ h2 => ?_, fun h => ?_, fun h1 h2 => ?_, by decide, by decide, by decide, by decide⟩
  all_goals
    simp only [ces1a2Pos, LOW_POS_THRESHOLD, HIGH_POS_THRESHOLD, BASE_OFFSET,
      HIGH_OFFSET_BASE, HIGH_OFFSET_SUBTRACT]
  all_goals split
  any_goals split
  all_goals omega

/-- Witness for C6 at concrete positions in each of the three segments. -/
theorem ces1a2_piecewise_remap_witness :
    ces1a2Pos 0 = 55758218 + 0 ∧ ces1a2Pos 40000 = 55834270 - (72745 - 40000)
    ∧ ces1a2Pos 10000 = 10000 :=
  ⟨(ces1a2_piecewise_remap 0).1 (by decide) (by decide),
   (ces1a2_piecewise_remap 40000).2.1 (by decide),
   (ces1a2_piecewise_remap 10000).2.2.1 (by decide) (by decide)⟩

theorem isFailure_exists (a : Attempt) (h : a.isFailure = true) : ∃ m, a = .exc m := by
  cases a with
  | exc m => exact ⟨m, rfl⟩
  | ok l => simp [Attempt.isFailure] at h

theorem fetchGo_attempts_le (attempts : Nat → Attempt) (fuel : Nat) :
    ∀ a, (fetchGo attempts a fuel).2.2 ≤ fuel := by
  induction fuel with
  | zero => exact fun a => Nat.le_refl 0
  | succ fuel ih =>
    intro a
    cases fuel with
    | zero =>
      cases ha : attempts a with
      | ok ids => simp [fetchGo, ha]
      | exc m => simp [fetchGo, ha]
    | succ fuel2 =>
      cases ha : attempts a with
      | ok ids => simp [fetchGo, ha]
      | exc m =>
        have hrec := ih (a + 1)
        simp [fetchGo, ha]
        omega

/-- C3: `fetch_rsid_entrez` consumes at most 5 attempts; with the first
four attempts raising and the fifth succeeding it returns the joined
result (not the sentinel) after backoffs of 1.5s, 3s, 4.5s and 6s
(`1.5 * attempt_number` between failures); with all five attempts raising
it returns `None` — which `fetch_rsid_batch` records as the `"NORSID"`
sentinel — and, being total, never propagates an exception. -/
theorem fetch_rsid_retry_policy (attempts : Nat → Attempt) (c p : String)
    (ids : List String) :
    ((∀ k, k < 4 → (attempts k).isFailure = true) → attempts 4 = Attempt.ok ids →
      ids.isEmpty = false →
      fetchRsidEntrez true c p attempts 5
        = (some (joinWith "," (ids.map fun r => "rs" ++ r)), [3/2, 3, 9/2, 6], 5))
    ∧ ((∀ k, k < 5 → (attempts k).isFailure = true) →
      fetchRsidEntrez true c p attempts 5 = (none, [3/2, 3, 9/2, 6], 5)
      ∧ fetchRsidBatch (fun c2 p2 => (fetchRsidEntrez true c2 p2 attempts 5).1)
          (0, [(0, c, p, ".")]) = (0, [(0, "NORSID")]))
    ∧ (fetchRsidEntrez true c p attempts 5).2.2 ≤ 5 := by
  refine ⟨?_, ?_, ?_⟩
  · intro hf h4 hne
    obtain ⟨m0, h0⟩ := isFailure_exists _ (hf 0 (by omega))
    obtain ⟨m1, h1⟩ := isFailure_exists _ (hf 1 (by omega))
    obtain ⟨m2, h2⟩ := isFailure_exists _ (hf 2 (by omega))
    obtain ⟨m3, h3⟩ := isFailure_exists _ (hf 3 (by omega))
    simp [fetchRsidEntrez, fetchGo, h0, h1, h2, h3, h4, hne]
    norm_num
  · intro hf
    obtain ⟨m0, h0⟩ := isFailure_exists _ (hf 0 (by omega))
    obtain ⟨m1, h1⟩ := isFailure_exists _ (hf 1 (by omega))
    obtain ⟨m2, h2⟩ := isFailure_exists _ (hf 2 (by omega))
    obtain ⟨m3, h3⟩ := isFailure_exists _ (hf 3 (by omega))
    obtain ⟨m4, h4⟩ := isFailure_exists _ (hf 4 (by omega))
    have hmain : fetchRsidEntrez true c p attempts 5 = (none, [3/2, 3, 9/2, 6], 5) := by
      simp [fetchRsidEntrez, fetchGo, h0, h1, h2, h3, h4]
      norm_num
    refine ⟨hmain, ?_⟩
    simp only [fetchRsidBatch, List.map_cons, List.map_nil]
    rw [if_pos (by simp)]
    rw [hmain]
    rfl
  · simp only [fetchRsidEntrez, if_pos rfl]
    exact fetchGo_attempts_le attempts 5 0

/-- Witness for C3: concrete attempt sequences — fail-4-then-succeed
returns `rs123,rs456` with the four backoffs; fail-all-5 returns the
sentinel. -/
theorem fetch_rsid_retry_policy_witness :
    fetchRsidEntrez true "16" "100"
        (fun k => if k < 4 then .exc "boom" else .ok ["123", "456"]) 5
      = (some "rs123,rs456", [3/2, 3, 9/2, 6], 5)
    ∧ fetchRsidEntrez true "16" "100" (fun _ => .exc "boom") 5
      = (none, [3/2, 3, 9/2, 6], 5) := by
  constructor
  · rw [(fetch_rsid_retry_policy (fun k => if k < 4 then .exc "boom" else .ok ["123", "456"])
      "16" "100" ["123", "456"]).1 (by decide) (by decide) (by decide)]
    rfl
  · exact ((fetch_rsid_retry_policy (fun _ => .exc "boom") "16" "100" []).2.1
      (fun k _ => rfl)).1

/-- C7: `filter_significant_rsids` keeps exactly the rows whose quality
parses to a number at least the threshold; a `"."` quality is excluded
for every threshold (so never read as zero), and `"."` does not parse. -/
theorem quality_filter_keeps_numeric_ge_threshold (rows : List VRec) (thr : ℚ) (r : VRec) :
    (r ∈ filterSignificantRsids rows thr ↔
      r ∈ rows ∧ ∃ q, pyFloat r.qual = some q ∧ thr ≤ q)
    ∧ (r.qual = "." → r ∉ filterSignificantRsids rows thr)
    ∧ pyFloat "." = none := by
  have hchar : ∀ s : String, (pdGeThreshold (pyFloat s) thr = true
      ↔ ∃ q, pyFloat s = some q ∧ thr ≤ q) := by
    intro s
    cases hq : pyFloat s with
    | none => simp [pdGeThreshold]
    | some v => simp [pdGeThreshold, ge_iff_le]
  refine ⟨?_, ?_, rfl⟩
  · rw [filterSignificantRsids, List.mem_filter, hchar r.qual]
  · intro hq hmem
    rw [filterSignificantRsids, List.mem_filter, hq] at hmem
    exact Bool.false_ne_true hmem.2

/-- Witness for C7: with threshold 20, a `"."`-quality row is dropped, a
25.5-quality row kept, a 5-quality row dropped. -/
theorem quality_filter_keeps_numeric_ge_threshold_witness :
    (⟨"16", "1", "rs1", "A", "G", ".", ""⟩ : VRec) ∉
      filterSignificantRsids [⟨"16", "1", "rs1", "A", "G", ".", ""⟩,
        ⟨"16", "2", "rs2", "A", "G", "25.5", ""⟩, ⟨"16", "3", "rs3", "A", "G", "5", ""⟩] 20
    ∧ filterSignificantRsids [⟨"16", "1", "rs1", "A", "G", ".", ""⟩,
        ⟨"16", "2", "rs2", "A", "G", "25.5", ""⟩, ⟨"16", "3", "rs3", "A", "G", "5", ""⟩] 20
      = [⟨"16", "2", "rs2", "A", "G", "25.5", ""⟩] := by
  constructor
  · exact (quality_filter_keeps_numeric_ge_threshold _ 20 _).2.1 rfl
  · have h1 : pdGeThreshold (pyFloat ".") (20 : ℚ) = false := rfl
    have h2 : pyFloat "25.5" = some (51 / 2) := by
      simp [pyFloat, splitOnChar, stripChars, isSpaceChar, isDigitChar, natOfDigits]
      norm_num
    have h2b : pdGeThreshold (pyFloat "25.5") (20 : ℚ) = true := by
      rw [h2]
      simp only [pdGeThreshold, decide_eq_true_eq, ge_iff_le]
      norm_num
    have h3 : pyFloat "5" = some 5 := by
      simp [pyFloat, splitOnChar, stripChars, isSpaceChar, isDigitChar, natOfDigits]
    have h3b : pdGeThreshold (pyFloat "5") (20 : ℚ) = false := by
      rw [h3]
      simp only [pdGeThreshold, decide_eq_false_iff_not, ge_iff_le]
      norm_num
    simp [filterSignificantRsids, List.filter, h1, h2b, h3b]

/-- C8: validation inspects only the first 3 data rows: with clean data
rows 1-4, data row 5 can be anything continuing after a leading `16`
cell — a short row or a non-numeric position included — and the file
still validates; the same non-numeric-POS error placed in data row 2
fails validation with the row-2 message. -/
theorem validate_inspects_only_first_three_rows (rest : String) :
    validateVcfFile ⟨true, "test.vcf", .ok
        ["##fileformat=VCFv4.2", "#CHROM\tPOS\tID\tREF\tALT\tQUAL\tFILTER",
          "16\t100\t.\tA\tG\t50\tPASS", "16\t101\t.\tA\tG\t50\tPASS",
          "16\t102\t.\tA\tG\t50\tPASS", "16\t103\t.\tA\tG\t50\tPASS",
          "16\t" ++ rest]⟩
      = (true, "VCF file is valid")
    ∧ validateVcfFile ⟨true, "test.vcf", .ok
        ["##fileformat=VCFv4.2", "#CHROM\tPOS\tID\tREF\tALT\tQUAL\tFILTER",
          "16\t100\t.\tA\tG\t50\tPASS", "16\tabc\t.\tA\tG\t50\tPASS",
          "16\t102\t.\tA\tG\t50\tPASS", "16\t103\t.\tA\tG\t50\tPASS",
          "16\t104\t.\tA\tG\t50\tPASS"]⟩
      = (false, "Data row 2: POS column must be numeric, got \x27abc\x27") := by
  constructor
  · rfl
  · rfl

/-- Witness for C8: data row 5 holding a non-numeric position and too
few columns still validates. -/
theorem validate_inspects_only_first_three_rows_witness :
    validateVcfFile ⟨true, "test.vcf", .ok
        ["##fileformat=VCFv4.2", "#CHROM\tPOS\tID\tREF\tALT\tQUAL\tFILTER",
          "16\t100\t.\tA\tG\t50\tPASS", "16\t101\t.\tA\tG\t50\tPASS",
          "16\t102\t.\tA\tG\t50\tPASS", "16\t103\t.\tA\tG\t50\tPASS",
          "16\tabc\tshort"]⟩
      = (true, "VCF file is valid") :=
  (validate_inspects_only_first_three_rows "abc\tshort").1

/-- Counterexample to C9: the cleaning step does not write the input's
header block — the input header line `##source=test` appears nowhere in
the cleaned output, which starts with a synthesized header instead. -/
theorem clean_vcf_discards_input_header :
    cleanVcf ["##source=test", "#CHROM\tPOS\tID\tREF\tALT\tQUAL\tFILTER\tINFO",
        "16\t100\trs1\tA\tG\t50\tPASS\tx"]
      = .ok ["##fileformat=VCFv4.2", "##contig=<ID=16>",
          "#CHROM\tPOS\tID\tREF\tALT\tQUAL\tSAMPLE", "16\t100\trs1\tA\tG\t50\t"]
    ∧ "##source=test" ∉ (["##fileformat=VCFv4.2", "##contig=<ID=16>",
          "#CHROM\tPOS\tID\tREF\tALT\tQUAL\tSAMPLE", "16\t100\trs1\tA\tG\t50\t"] : List String) :=
  ⟨rfl, by decide⟩

/-- C9 (amended): the annotation step writes the input's `#`-prefixed
header block verbatim before its data lines; the cleaning step instead
writes a synthesized three-line header (fileformat, contig derived from
the first data row, canonical column line) and discards the input's
header block; the two filter steps write data lines only — every output
line is the serialization of some input row, no header is added. -/
theorem serialization_header_blocks (rows : List VRec) :
    (∀ (bs : Nat) (lookup : String → String → Option String) (failed : Nat → Bool)
        (order : List Nat) (lines out : List String),
      annotateVcf bs lookup failed order lines = some out →
      ∃ rest, out = headerLinesOf lines ++ rest)
    ∧ (∀ (lines out : List String), cleanVcf lines = .ok out →
      ∃ c rest, out = ["##fileformat=VCFv4.2", "##contig=<ID=" ++ c ++ ">",
        "#CHROM\tPOS\tID\tREF\tALT\tQUAL\tSAMPLE"] ++ rest)
    ∧ (∀ l ∈ filterRsidsFile rows, ∃ r ∈ rows, l = serializeRec r)
    ∧ (∀ (thr : ℚ) (l : String), l ∈ filterSignificantFile rows thr →
      ∃ r ∈ rows, l = serializeRec r) := by
  refine ⟨?_, ?_, ?_, ?_⟩
  · intro bs lookup failed order lines out h
    dsimp only [annotateVcf] at h
    by_cases hne : (parseVcfData lines).isEmpty
    · rw [hne, if_pos rfl] at h
      cases h
    · rw [Bool.not_eq_true] at hne
      rw [hne, if_neg (show ¬(false = true) from Bool.false_ne_true)] at h
      injection h with h
      exact ⟨_, h.symm⟩
  · intro lines out h
    cases hrows : readCsvRows lines with
    | nil =>
      rw [cleanVcf.eq_def, hrows] at h
      cases h
    | cons r0 tail =>
      have hstep : cleanVcf lines
          = (match cleanedRows (r0 :: tail) r0.length with
            | none => (Except.error "VCF cleaning failed: unsupported column count" :
                Except String (List String))
            | some crows => .ok (["##fileformat=VCFv4.2",
                "##contig=<ID=" ++ r0.getD 0 "" ++ ">",
                "#CHROM\tPOS\tID\tREF\tALT\tQUAL\tSAMPLE"]
              ++ crows.map (joinWith "\t"))) := by
        rw [cleanVcf.eq_def, hrows]
      rw [hstep] at h
      cases hcl : cleanedRows (r0 :: tail) r0.length with
      | none =>
        rw [hcl] at h
        cases h
      | some crows =>
        rw [hcl] at h
        injection h with h
        exact ⟨r0.getD 0 "", crows.map (joinWith "\t"), h.symm⟩
  · intro l hl
    rw [filterRsidsFile] at hl
    obtain ⟨r, hr, rfl⟩ := List.mem_map.mp hl
    exact ⟨r, List.mem_of_mem_filter hr, rfl⟩
  · intro thr l hl
    rw [filterSignificantFile] at hl
    obtain ⟨r, hr, rfl⟩ := List.mem_map.mp hl
    exact ⟨r, List.mem_of_mem_filter hr, rfl⟩

/-- Witness for the amended C9 at concrete inputs: an annotation run
whose output starts with the input's header block, a clean run whose
output starts with the synthesized header, and filter outputs that are
serializations of input rows. -/
theorem serialization_header_blocks_witness :
    (∃ rest, ["##h", "#CHROM\tPOS\tID\tREF\tALT\tQUAL\tSAMPLE", "16\t1\trs1\tA\tG\t9\ts"]
      = headerLinesOf ["##h", "#CHROM\tPOS\tID\tREF\tALT\tQUAL\tSAMPLE",
          "16\t1\trs1\tA\tG\t9\ts"] ++ rest)
    ∧ (∃ c rest, ["##fileformat=VCFv4.2", "##contig=<ID=16>",
        "#CHROM\tPOS\tID\tREF\tALT\tQUAL\tSAMPLE", "16\t100\trs1\tA\tG\t50\t"]
      = ["##fileformat=VCFv4.2", "##contig=<ID=" ++ c ++ ">",
        "#CHROM\tPOS\tID\tREF\tALT\tQUAL\tSAMPLE"] ++ rest)
    ∧ (∃ r ∈ [(⟨"16", "1", "rs1", "A", "G", "9", ""⟩ : VRec)],
      "16\t1\trs1\tA\tG\t9\t" = serializeRec r) := by
  refine ⟨?_, ?_, ?_⟩
  · exact (serialization_header_blocks []).1 2 (fun _ _ => none) (fun _ => false) [0]
      ["##h", "#CHROM\tPOS\tID\tREF\tALT\tQUAL\tSAMPLE", "16\t1\trs1\tA\tG\t9\ts"]
      ["##h", "#CHROM\tPOS\tID\tREF\tALT\tQUAL\tSAMPLE", "16\t1\trs1\tA\tG\t9\ts"]
      (by decide)
  · exact (serialization_header_blocks []).2.1
      ["##source=test", "#CHROM\tPOS\tID\tREF\tALT\tQUAL\tFILTER\tINFO",
        "16\t100\trs1\tA\tG\t50\tPASS\tx"]
      ["##fileformat=VCFv4.2", "##contig=<ID=16>",
        "#CHROM\tPOS\tID\tREF\tALT\tQUAL\tSAMPLE", "16\t100\trs1\tA\tG\t50\t"] rfl
  · exact (serialization_header_blocks [⟨"16", "1", "rs1", "A", "G", "9", ""⟩]).2.2.1
      "16\t1\trs1\tA\tG\t9\t" (by decide)

/-- C10: `validate_vcf_file` is total — it always returns an
`(is_valid, message)` pair, absorbing exceptions raised while reading —
and on each error path returns `False` with the path's message: missing
file, wrong extension, read exception, empty file, missing `#CHROM`
column header line, missing required column, and absent data rows. -/
theorem validate_vcf_total_error_paths (f : FsFile) :
    (f.present = false → validateVcfFile f = (false, "File does not exist: " ++ f.path))
    ∧ (f.present = true → pyEndsWith (pyLower f.path) ".vcf" = false →
      validateVcfFile f = (false, "File must have .vcf extension"))
    ∧ (∀ e, f.present = true → pyEndsWith (pyLower f.path) ".vcf" = true →
      f.content = .error e →
      validateVcfFile f = (false, "Error reading VCF file: " ++ e))
    ∧ (∀ lines, f.present = true → pyEndsWith (pyLower f.path) ".vcf" = true →
      f.content = .ok lines → lines = [] →
      validateVcfFile f = (false, "VCF file is empty"))
    ∧ (∀ lines, f.present = true → pyEndsWith (pyLower f.path) ".vcf" = true →
      f.content = .ok lines → lines ≠ [] →
      (∀ l ∈ lines, pyStartsWith l "#CHROM" = false) →
      validateVcfFile f = (false, "VCF file missing column header line (#CHROM)"))
    ∧ (∀ lines chl, f.present = true → pyEndsWith (pyLower f.path) ".vcf" = true →
      f.content = .ok lines → lines ≠ [] →
      lines.find? (fun l => pyStartsWith l "#CHROM") = some chl →
      (∃ c ∈ requiredColumns, (pySplit (pyStrip chl) '\t').contains c = false) →
      (validateVcfFile f).1 = false
        ∧ ∃ c ∈ requiredColumns, (validateVcfFile f).2 = "Missing required column: " ++ c)
    ∧ (∀ lines chl, f.present = true → pyEndsWith (pyLower f.path) ".vcf" = true →
      f.content = .ok lines → lines ≠ [] →
      lines.find? (fun l => pyStartsWith l "#CHROM") = some chl →
      (∀ c ∈ requiredColumns, (pySplit (pyStrip chl) '\t').contains c = true) →
      lines.length ≤ (lines.filter fun l => pyStartsWith l "##").length + 1 →
      validateVcfFile f = (false, "VCF file has no data rows")) := by
  obtain ⟨fp, fpath, fcontent⟩ := f
  refine ⟨?_, ?_, ?_, ?_, ?_, ?_, ?_⟩
  · intro h
    dsimp only at h
    subst h
    rfl
  · intro h1 h2
    dsimp only at h1 h2
    subst h1
    simp only [validateVcfFile, h2]
    rfl
  · intro e h1 h2 h3
    dsimp only at h1 h2 h3
    subst h1
    subst h3
    simp only [validateVcfFile, h2]
    rfl
  · intro lines h1 h2 h3 h4
    dsimp only at h1 h2 h3
    subst h1
    subst h3
    subst h4
    simp only [validateVcfFile, h2]
    rfl
  · intro lines h1 h2 h3 hne hall
    dsimp only at h1 h2 h3
    subst h1
    subst h3
    have hie : lines.isEmpty = false := by
      cases lines with
      | nil => exact absurd rfl hne
      | cons a as => rfl
    have hfind : lines.find? (fun l => pyStartsWith l "#CHROM") = none :=
      List.find?_eq_none.mpr (fun x hx => by rw [hall x hx]; exact Bool.false_ne_true)
    simp only [validateVcfFile, h2, hie, hfind]
    rfl
  · intro lines chl h1 h2 h3 hne hfind hmiss
    dsimp only at h1 h2 h3 ⊢
    subst h1
    subst h3
    have hie : lines.isEmpty = false := by
      cases lines with
      | nil => exact absurd rfl hne
      | cons a as => rfl
    cases hc2 : requiredColumns.find?
        (fun c => (pySplit (pyStrip chl) '\t').contains c = false) with
    | none =>
      obtain ⟨c, hc1, hcf⟩ := hmiss
      have hno := List.find?_eq_none.mp hc2 c hc1
      simp at hno hcf
      exact absurd hno hcf
    | some c2 =>
      have hcmem := List.mem_of_find?_eq_some hc2
      have key : validateVcfFile ⟨true, fpath, .ok lines⟩
          = (false, "Missing required column: " ++ c2) := by
        simp only [validateVcfFile, h2, hie, hfind, hc2]
        rfl
      exact ⟨by rw [key], c2, hcmem, by rw [key]⟩
  · intro lines chl h1 h2 h3 hne hfind hallcols hlen
    dsimp only at h1 h2 h3
    subst h1
    subst h3
    have hie : lines.isEmpty = false := by
      cases lines with
      | nil => exact absurd rfl hne
      | cons a as => rfl
    have hnonecols : requiredColumns.find?
        (fun c => (pySplit (pyStrip chl) '\t').contains c = false) = none :=
      List.find?_eq_none.mpr (fun c hc => by simpa using hallcols c hc)
    simp only [validateVcfFile, h2, hie, hfind, hnonecols]
    rw [if_pos hlen]
    rfl

/-- Witness for C10: each error path exercised at a concrete input. -/
theorem validate_vcf_total_error_paths_witness :
    validateVcfFile ⟨false, "a.vcf", .ok []⟩ = (false, "File does not exist: a.vcf")
    ∧ validateVcfFile ⟨true, "a.txt", .ok []⟩ = (false, "File must have .vcf extension")
    ∧ validateVcfFile ⟨true, "a.vcf", .error "boom"⟩ = (false, "Error reading VCF file: boom")
    ∧ validateVcfFile ⟨true, "a.vcf", .ok []⟩ = (false, "VCF file is empty")
    ∧ validateVcfFile ⟨true, "a.vcf", .ok ["##x", "16\t1\t.\tA\tG\t9\tPASS"]⟩
      = (false, "VCF file missing column header line (#CHROM)")
    ∧ (validateVcfFile ⟨true, "a.vcf", .ok ["#CHROM\tPOS\tID"]⟩).1 = false
    ∧ validateVcfFile ⟨true, "a.vcf", .ok ["#CHROM\tPOS\tID\tREF\tALT\tQUAL\tFILTER"]⟩
      = (false, "VCF file has no data rows") :=
  ⟨(validate_vcf_total_error_paths _).1 rfl,
   (validate_vcf_total_error_paths _).2.1 rfl (by decide),
   (validate_vcf_total_error_paths _).2.2.1 "boom" rfl (by decide) rfl,
   (validate_vcf_total_error_paths _).2.2.2.1 [] rfl (by decide) rfl rfl,
   (validate_vcf_total_error_paths _).2.2.2.2.1 ["##x", "16\t1\t.\tA\tG\t9\tPASS"]
     rfl (by decide) rfl (by decide) (by decide),
   ((validate_vcf_total_error_paths _).2.2.2.2.2.1 ["#CHROM\tPOS\tID"] "#CHROM\tPOS\tID"
     rfl (by decide) rfl (by decide) (by decide) ⟨"REF", by decide, by decide⟩).1,
   (validate_vcf_total_error_paths _).2.2.2.2.2.2 ["#CHROM\tPOS\tID\tREF\tALT\tQUAL\tFILTER"]
     "#CHROM\tPOS\tID\tREF\tALT\tQUAL\tFILTER" rfl (by decide) rfl (by decide) (by decide)
     (by decide) (by decide)⟩

end RsidRetrieval
